import Mathlib

/-!
Verification model of `asyncio_rpc/serialization/msgpack.py`.

The module is an extensible binary object codec built on top of msgpack:
a process-wide registry (`REGISTRY`) maps native Python types and msgpack
ext codes to handlers; `dumpb`/`loadb` run msgpack pack/unpack with a
`default`/`ext_hook` pair that dispatches unknown values through the
registry, plus an optional whole-buffer lz4 compression pass.

Shallow embedding conventions:
* Python values that can enter `dumpb` are the inductive `AppVal`
  (msgpack-native scalars and containers, numpy arrays, `datetime`,
  `slice`, dataclass instances, pydantic model instances, and opaque
  `foreign` values of arbitrary runtime type).
* The byte strings produced by `msgpack.packb`, `lz4.frame.compress` and
  the handlers are modelled as the free algebra `Bytes`: `.packed w`
  stands for the msgpack encoding of the wire tree `w`, `.compressed b`
  for the lz4 framing of `b`, `.ascii s` for a literal ASCII string.
  This encodes the collaborator contract that msgpack and lz4 are
  injective and mutually distinguishable; `msgpack.unpackb` /
  `lz4.frame.decompress` fail on bytes that are not of their shape.
* numpy is consumed only through `shape` / `str(dtype)` /
  `np.isfortran` / `tobytes` / `frombuffer` / `reshape` /
  `asfortranarray`; an `NDArray` is its logical content: shape, dtype,
  the `np.isfortran` flag, and the C-order `tobytes()` byte string.
  A representative closed universe `Dtype` of dtypes is used, with the
  collaborator contract `np.dtype (str dt) = dt` for plain scalar
  dtypes (`Dtype.ofTag_tag`); the `str()` of a structured dtype is not
  a valid dtype specification, so `np.dtype` raises `TypeError` on it
  and decode inherits that failure.
* `datetime` values are their microseconds-since-epoch (Python datetimes
  have exactly microsecond resolution); `%f` formatting and `float()`
  parsing are modelled exactly over that grid.
* Python exceptions are the inductive `Err`; fallible operations return
  `Except Err _`.
-/

/-- Runtime type of a Python object, as used by the exact-type dispatch
`type(obj) in REGISTRY['obj_types']` (msgpack.py line 243).  Class
objects are identified by name; `subclassOf p n` is a strict subclass
named `n` of the type `p` (a distinct type object, hence a distinct
dispatch key). -/
inductive PyType where
  | ndarray
  | npVoid
  | pydatetime
  | pyslice
  | cls (name : String)
  | subclassOf (parent : PyType) (name : String)
  | other (name : String)
deriving DecidableEq

/-- Closed representative universe of numpy dtypes.  `recXY` is the
structured (record) dtype `[('x', '<i4'), ('y', '<f8')]`. -/
inductive Dtype where
  | int8
  | int32
  | int64
  | float64
  | boolD
  | objectD
  | recXY
deriving DecidableEq

/-- `str(dtype)` (msgpack.py line 111). -/
def Dtype.tag : Dtype → String
  | .int8 => "int8"
  | .int32 => "int32"
  | .int64 => "int64"
  | .float64 => "float64"
  | .boolD => "bool"
  | .objectD => "object"
  | .recXY => "[('x', '<i4'), ('y', '<f8')]"

/-- `dtype.itemsize` in bytes. -/
def Dtype.itemsize : Dtype → Nat
  | .int8 => 1
  | .int32 => 4
  | .int64 => 8
  | .float64 => 8
  | .boolD => 1
  | .objectD => 8
  | .recXY => 12

/-- Whether the dtype is a compound record (structured) layout. -/
def Dtype.structured : Dtype → Bool
  | .recXY => true
  | _ => false

/-- `np.dtype(tag)`: recover a dtype from its string tag, as
`np.frombuffer(..., dtype=data['dtype'])` does (msgpack.py line 122).
`np.dtype` accepts the `str()` of a plain scalar dtype, but it raises
`TypeError("data type ... not understood")` on the `str()` of a
structured dtype — "[('x', '<i4'), ('y', '<f8')]" is a repr, not a
valid dtype specification — so the structured tag has no entry here. -/
def Dtype.ofTag (s : String) : Option Dtype :=
  if s = "int8" then some .int8
  else if s = "int32" then some .int32
  else if s = "int64" then some .int64
  else if s = "float64" then some .float64
  else if s = "bool" then some .boolD
  else if s = "object" then some .objectD
  else none

/-- Whether a numpy array of this shape can have `np.isfortran = True`:
an array that is both C- and F-contiguous (empty, or at most one
dimension of extent > 1) always reports `np.isfortran = False`,
and `np.asfortranarray` cannot change that. -/
def fortranDistinct (shape : List Nat) : Bool :=
  decide (0 < shape.prod) && decide (2 ≤ (shape.filter (fun d => 1 < d)).length)

/-- Logical content of a numpy array: shape, dtype, the `np.isfortran`
flag, and the C-order `tobytes()` byte string (one `Nat` per byte). -/
structure NDArray where
  shape : List Nat
  dtype : Dtype
  fortran : Bool
  data : List Nat
deriving DecidableEq

/-- A real ndarray satisfies: the buffer length matches
`product(shape) * itemsize`, and `np.isfortran` can only be set when the
shape admits distinct C/F layouts. -/
def NDArray.wf (a : NDArray) : Bool :=
  (a.data.length == a.shape.prod * a.dtype.itemsize) &&
    (!a.fortran || fortranDistinct a.shape)

/-- Python exceptions raised by the codec paths of msgpack.py. -/
inductive Err where
  /-- `TypeError("Unknown type: ...")` from `default` (line 250);
  the spec's `UnsupportedType`. -/
  | unknownType
  /-- `TypeError("Unknown ext_type: ...")` from `ext_hook` (line 267);
  the spec's `UnknownExtensionCode`. -/
  | unknownExtType
  /-- `DtypeNotSupported` (lines 24-25, 106, 120);
  the spec's `UnsupportedElementType`. -/
  | dtypeNotSupported
  /-- `AssertionError("class ... not yet registered")` from
  `DataclassHandler.unpackb` / `PydanticHandler.unpackb`
  (lines 178, 209); the spec's `UnregisteredType`. -/
  | classNotRegistered
  /-- `AssertionError` from the `hasattr` assert in `register`
  (line 64). -/
  | assertionError
  /-- Malformed-bytes failures: lz4 decompress of non-lz4 input,
  msgpack unpack of non-msgpack input, `float()` of a non-numeric
  string, malformed handler payloads. -/
  | valueError
  /-- `TypeError` from Python-level misuse during decode
  (`slice(*xs)` arity, `klass(**data)` with non-string keys). -/
  | typeError
deriving DecidableEq

/-- The closed universe of pydantic model classes registered in the
scenarios of this development: `Inner` (one plain field space) and
`Outer` (whose field `"inner"` is declared of type `Inner`, so that
`obj.dict()` exports it as a plain dict while the raw instance state
holds an `Inner` instance). -/
inductive PydClass where
  | inner
  | outer
deriving DecidableEq

/-- `obj_def.__name__` of the pydantic class. -/
def PydClass.pyname : PydClass → String
  | .inner => "Inner"
  | .outer => "Outer"

mutual
/-- A Python value that can be handed to `dumpb` / produced by `loadb`. -/
inductive AppVal where
  | pynone
  | pybool (b : Bool)
  | pyint (n : Int)
  | pystr (s : String)
  | pybytes (bs : List Nat)
  /-- Python list (tuples are packed identically and unpack as lists). -/
  | pylist (xs : AppList)
  | pydict (kvs : AppKVs)
  | array (a : NDArray)
  /-- `datetime`, by its microseconds since the epoch. -/
  | pydatetime (micros : Int)
  | pyslice (start stop step : AppVal)
  /-- Instance of a registered-or-not dataclass named `name`, with
  `__dict__ = fields`. -/
  | dataclassInst (name : String) (fields : AppFields)
  /-- Instance of a pydantic model class, with validated internal state
  `fields` (`__dict__`). -/
  | pydanticInst (c : PydClass) (fields : AppFields)
  /-- An opaque value of some other runtime type `t`. -/
  | foreign (t : PyType)

/-- Spine of a Python list. -/
inductive AppList where
  | nil
  | cons (hd : AppVal) (tl : AppList)

/-- Spine of a Python dict (insertion-ordered key/value pairs). -/
inductive AppKVs where
  | nil
  | cons (k v : AppVal) (tl : AppKVs)

/-- A string-keyed field map (`__dict__` of a dataclass or model). -/
inductive AppFields where
  | nil
  | cons (k : String) (v : AppVal) (tl : AppFields)
end

/-- Runtime type of a value, for encode-side dispatch. -/
def AppVal.typeOf : AppVal → PyType
  | .pynone => .other "NoneType"
  | .pybool _ => .other "bool"
  | .pyint _ => .other "int"
  | .pystr _ => .other "str"
  | .pybytes _ => .other "bytes"
  | .pylist _ => .other "list"
  | .pydict _ => .other "dict"
  | .array _ => .ndarray
  | .pydatetime _ => .pydatetime
  | .pyslice _ _ _ => .pyslice
  | .dataclassInst n _ => .cls n
  | .pydanticInst c _ => .cls c.pyname
  | .foreign t => t

/-- Behavioural identity of a handler class (which `packb`/`unpackb`
implementation it carries). -/
inductive HKind where
  | numpyArr
  | numpyStruct
  | datetimeH
  | sliceH
  | dataclassH
  | pydanticH
  /-- Some other user-defined handler class. -/
  | customH (n : Nat)
deriving DecidableEq

/-- A handler class, as stored in the registry: its `ext_type` attribute,
its `obj_type` attribute when it has one (`DataclassHandler` and
`PydanticHandler` have none), and its behaviour. -/
structure Handler where
  extType : Int
  objType : Option PyType
  id : HKind
deriving DecidableEq

/-- `NumpyArrayHandler` (msgpack.py lines 88-128). -/
def NumpyArrayHandler : Handler := ⟨1, some .ndarray, .numpyArr⟩

/-- `NumpyStructuredArrayHandler` (lines 131-133): inherits
`NumpyArrayHandler`'s `packb`/`unpackb`, registered for `np.void`. -/
def NumpyStructuredArrayHandler : Handler := ⟨2, some .npVoid, .numpyStruct⟩

/-- `DatetimeHandler` (lines 136-149). -/
def DatetimeHandler : Handler := ⟨3, some .pydatetime, .datetimeH⟩

/-- `DataclassHandler` (lines 152-181): no `obj_type` attribute. -/
def DataclassHandler : Handler := ⟨4, none, .dataclassH⟩

/-- `PydanticHandler` (lines 184-212): no `obj_type` attribute. -/
def PydanticHandler : Handler := ⟨6, none, .pydanticH⟩

/-- `SliceHandler` (lines 215-228). -/
def SliceHandler : Handler := ⟨5, some .pyslice, .sliceH⟩

/-- Python dict lookup on an insertion-ordered association list. -/
def alookup {κ α : Type} [DecidableEq κ] : List (κ × α) → κ → Option α
  | [], _ => none
  | (k, v) :: t, k0 => if k = k0 then some v else alookup t k0

/-- Python dict assignment `d[k] = v`: update in place if the key is
present, else append (insertion order preserved). -/
def setKey {κ α : Type} [DecidableEq κ] : List (κ × α) → κ → α → List (κ × α)
  | [], k, v => [(k, v)]
  | (k1, v1) :: t, k, v => if k1 = k then (k, v) :: t else (k1, v1) :: setKey t k v

/-- The module-level `REGISTRY` dict (msgpack.py lines 18-21). -/
structure Registry where
  objTypes : List (PyType × Handler)
  extTypes : List (Int × Handler)
  serializables : List (String × String)
  pydanticSerializables : List (String × PydClass)
deriving DecidableEq

def emptyRegistry : Registry := ⟨[], [], [], []⟩

/-- An argument to `register`: a pydantic model class (`BaseModel` in its
mro), a dataclass, or a handler class (anything else, which must carry
`obj_type` and `ext_type` attributes). -/
inductive ObjDef where
  | pydCls (c : PydClass)
  | dcCls (name : String)
  | handler (h : Handler)

/-- `register` (msgpack.py lines 28-66).  The only exception it can
raise is the `assert hasattr(...)` on line 64, when a non-dataclass,
non-pydantic `obj_def` lacks an `obj_type` attribute.  There is no
ext-code collision check anywhere: the handler branch overwrites both
tables unconditionally, and the dataclass/pydantic branches add their
handler's ext code only if it is absent. -/
def register (ρ : Registry) (d : ObjDef) : Except Err Registry :=
  match d with
  | .pydCls c =>
      let ρ1 : Registry :=
        { ρ with
          pydanticSerializables := setKey ρ.pydanticSerializables c.pyname c,
          objTypes := setKey ρ.objTypes (.cls c.pyname) PydanticHandler }
      if (alookup ρ1.extTypes PydanticHandler.extType).isSome then .ok ρ1
      else .ok { ρ1 with extTypes := setKey ρ1.extTypes PydanticHandler.extType PydanticHandler }
  | .dcCls n =>
      let ρ1 : Registry :=
        { ρ with
          serializables := setKey ρ.serializables n n,
          objTypes := setKey ρ.objTypes (.cls n) DataclassHandler }
      if (alookup ρ1.extTypes DataclassHandler.extType).isSome then .ok ρ1
      else .ok { ρ1 with extTypes := setKey ρ1.extTypes DataclassHandler.extType DataclassHandler }
  | .handler h =>
      match h.objType with
      | none => .error .assertionError
      | some t =>
          .ok { ρ with
                objTypes := setKey ρ.objTypes t h,
                extTypes := setKey ρ.extTypes h.extType h }

/-- The registry state after the module-level `register` calls
(msgpack.py lines 231-235). -/
def REGISTRY0 : Registry :=
  match (register emptyRegistry (.handler NumpyArrayHandler) >>= fun r =>
         register r (.handler NumpyStructuredArrayHandler) >>= fun r =>
         register r (.handler DatetimeHandler) >>= fun r =>
         register r (.handler SliceHandler)) with
  | .ok r => r
  | .error _ => emptyRegistry

mutual
/-- Model of pydantic v1 `BaseModel.dict()` applied to a field value:
nested model instances are exported to plain dicts (string keys),
recursively through lists and dict values; all other values pass
through untouched. -/
def exportVal : AppVal → AppVal
  | .pydanticInst _ f => .pydict (exportFieldsKV f)
  | .pylist xs => .pylist (exportList xs)
  | .pydict kvs => .pydict (exportKVs kvs)
  | v => v

def exportList : AppList → AppList
  | .nil => .nil
  | .cons v t => .cons (exportVal v) (exportList t)

def exportKVs : AppKVs → AppKVs
  | .nil => .nil
  | .cons k v t => .cons k (exportVal v) (exportKVs t)

/-- Export a field map to the dict `obj.dict()` returns for it. -/
def exportFieldsKV : AppFields → AppKVs
  | .nil => .nil
  | .cons k v t => .cons (.pystr k) (exportVal v) (exportFieldsKV t)
end

/-- `obj.dict()` for an instance with internal state `f`: every value is
exported. -/
def exportFields : AppFields → AppFields
  | .nil => .nil
  | .cons k v t => .cons k (exportVal v) (exportFields t)

/-- Convert a decoded Python dict to a string-keyed field map, as
`klass(**data)` requires; `none` when some key is not a `str`. -/
def kvsToFields : AppKVs → Option AppFields
  | .nil => some .nil
  | .cons (.pystr k) v t => (kvsToFields t).map (AppFields.cons k v)
  | .cons _ _ _ => none

/-- Pydantic validation of a value against a field declared of type
`Inner`: a dict with string keys is parsed into an `Inner` instance
(an already-valid instance passes through). -/
def toInner (v : AppVal) : AppVal :=
  match v with
  | .pydict kvs =>
      match kvsToFields kvs with
      | some f => .pydanticInst .inner f
      | none => .pydict kvs
  | v => v

def mapField (f : String → AppVal → AppVal) : AppFields → AppFields
  | .nil => .nil
  | .cons k v t => .cons k (f k v) (mapField f t)

/-- `klass(**data)` validation/coercion for each model class of the
universe: `Inner` declares only plain fields (no coercion); `Outer`
declares its `"inner"` field of type `Inner`. -/
def PydClass.validate : PydClass → AppFields → AppFields
  | .inner, f => f
  | .outer, f => mapField (fun k v => if k = "inner" then toInner v else v) f

mutual
/-- A msgpack wire tree: what `msgpack.packb` serializes after `default`
has replaced every non-native value by an extension frame. -/
inductive Wire where
  | wnil
  | wbool (b : Bool)
  | wint (n : Int)
  | wstr (s : String)
  | wbin (bs : List Nat)
  | warr (xs : WireList)
  | wmap (kvs : WireKVs)
  /-- `msgpack.ExtType(code, payload)`. -/
  | wext (code : Int) (payload : Bytes)

inductive WireList where
  | nil
  | cons (hd : Wire) (tl : WireList)

inductive WireKVs where
  | nil
  | cons (k v : Wire) (tl : WireKVs)

/-- Byte strings, as the free algebra over the producers that appear in
msgpack.py: `packed w` is `msgpack.packb` output for wire tree `w`,
`compressed b` is `lz4.frame.compress b`, `ascii s` is a literal ASCII
string (the `b'%f'` timestamp payload). -/
inductive Bytes where
  | ascii (s : String)
  | packed (w : Wire)
  | compressed (b : Bytes)
end

/-- `lz4.frame.compress`. -/
def lz4_compress (b : Bytes) : Bytes := .compressed b

/-- `lz4.frame.decompress`: strips one lz4 frame, raises on input that
is not lz4-framed. -/
def lz4_decompress (b : Bytes) : Except Err Bytes :=
  match b with
  | .compressed b1 => .ok b1
  | _ => .error .valueError

/-- `do_nothing` (msgpack.py lines 270-271), in compressor position. -/
def do_nothing (b : Bytes) : Bytes := b

/-- `do_nothing`, in decompressor position (a decompressor may fail, the
identity never does). -/
def do_nothing_d (b : Bytes) : Except Err Bytes := .ok b

/-- The ten decimal digit characters with their values. -/
def decDigitTable : List (Char × Nat) :=
  [('0', 0), ('1', 1), ('2', 2), ('3', 3), ('4', 4),
   ('5', 5), ('6', 6), ('7', 7), ('8', 8), ('9', 9)]

/-- The decimal digit character of a value below ten. -/
def decChar (d : Nat) : Char := (decDigitTable.map Prod.fst).getD d '?'

/-- Value of a decimal digit character. -/
def decDigitVal (c : Char) : Option Nat := alookup decDigitTable c

/-- Standard decimal digit string of a natural number (most significant
first), as `%d` renders it. -/
def natToDecChars (n : Nat) : List Char :=
  if n = 0 then ['0'] else ((Nat.digits 10 n).reverse.map decChar)

/-- Zero-padded six-digit rendering of `n < 10^6`, as the fractional
part of `%f` output. -/
def pad6Chars (n : Nat) : List Char :=
  List.replicate (6 - (natToDecChars n).length) '0' ++ natToDecChars n

/-- `b'%f' % dt.timestamp()` (msgpack.py line 145) over the microsecond
grid: sign, integral seconds, `'.'`, exactly six fractional digits. -/
def fmt6Chars (micros : Int) : List Char :=
  (if micros < 0 then ['-'] else []) ++
    natToDecChars (micros.natAbs / 1000000) ++ '.' :: pad6Chars (micros.natAbs % 1000000)

def fmt6 (micros : Int) : String := ⟨fmt6Chars micros⟩

/-- Parse an unsigned decimal digit string. -/
def parseDecL (cs : List Char) : Option Nat :=
  if cs.isEmpty then none
  else if cs.all (fun c => (decDigitVal c).isSome) then
    some (Nat.ofDigits 10 ((cs.map (fun c => (decDigitVal c).getD 0)).reverse))
  else none

/-- Split a character list at its unique `'.'`; `none` when there is no
dot or more than one. -/
def splitDot : List Char → Option (List Char × List Char)
  | [] => none
  | c :: t =>
    if c = '.' then (if '.' ∈ t then none else some ([], t))
    else (splitDot t).map (fun p => (c :: p.1, p.2))

/-- Parse the unsigned part of a `%f`-formatted seconds value back to
microseconds. -/
def parse6Pos (cs : List Char) : Option Nat :=
  match splitDot cs with
  | some (ip, fp) =>
      if fp.length = 6 then
        (parseDecL ip).bind (fun n => (parseDecL fp).map (fun f => n * 1000000 + f))
      else none
  | none => none

/-- `float(data)` followed by `datetime.fromtimestamp` (msgpack.py line
149), on the `%f` output grammar: microseconds since the epoch. -/
def parse6Chars : List Char → Option Int
  | [] => none
  | c :: t =>
    if c = '-' then (parse6Pos t).map (fun n => -(Int.ofNat n))
    else (parse6Pos (c :: t)).map (fun n => Int.ofNat n)

def parse6 (s : String) : Option Int := parse6Chars s.data

def shapeWire : List Nat → WireList
  | [] => .nil
  | n :: t => .cons (.wint (Int.ofNat n)) (shapeWire t)

/-- The dict built by `NumpyArrayHandler.packb` (msgpack.py lines
109-114): `{'shape': ..., 'dtype': str(dtype), 'fortran_order':
np.isfortran(a), 'data': a.tobytes()}`. -/
def arrayWire (a : NDArray) : Wire :=
  .wmap (.cons (.wstr "shape") (.warr (shapeWire a.shape))
        (.cons (.wstr "dtype") (.wstr a.dtype.tag)
        (.cons (.wstr "fortran_order") (.wbool a.fortran)
        (.cons (.wstr "data") (.wbin a.data) .nil))))

mutual
/-- `msgpack.packb(v, default=default)` (msgpack.py lines 238-250,
281-282): native values are serialized structurally; any other value is
dispatched by exact runtime type through `REGISTRY['obj_types']` and
wrapped as an extension frame whose payload is the handler's `packb`
output (handler bodies inlined below, with source lines).  A registered
handler whose `packb` is applied to a value of the wrong kind fails
(`Err.typeError`, an `AttributeError`-like misuse that sane registries
never reach).  `exported = true` means the value sits inside the output
of a pydantic `obj.dict()` export, which replaces nested model
instances by plain dicts, recursively through list items and dict
values; so in that mode a model instance serializes as its exported
dict, not as an extension frame. -/
def packVal (ρ : Registry) (exported : Bool) : AppVal → Except Err Wire
  | .pynone => .ok .wnil
  | .pybool b => .ok (.wbool b)
  | .pyint n => .ok (.wint n)
  | .pystr s => .ok (.wstr s)
  | .pybytes bs => .ok (.wbin bs)
  | .pylist xs => (packList ρ exported xs).map .warr
  | .pydict kvs => (packKVs ρ exported kvs).map .wmap
  | .array a =>
      match alookup ρ.objTypes PyType.ndarray with
      | none => .error .unknownType
      | some h =>
        match h.id with
        | .numpyArr | .numpyStruct =>
            -- NumpyArrayHandler.packb (lines 103-114), inherited
            -- unchanged by NumpyStructuredArrayHandler: payload is
            -- dumpb(dict, do_compress=False), i.e. uncompressed msgpack
            if a.dtype.tag = "object" then .error .dtypeNotSupported
            else .ok (.wext h.extType (.packed (arrayWire a)))
        | _ => .error .typeError
  | .pydatetime micros =>
      match alookup ρ.objTypes PyType.pydatetime with
      | none => .error .unknownType
      | some h =>
        match h.id with
        | .datetimeH =>
            -- DatetimeHandler.packb (lines 143-145): b'%f' % timestamp
            .ok (.wext h.extType (.ascii (fmt6 micros)))
        | _ => .error .typeError
  | .pyslice v1 v2 v3 =>
      match alookup ρ.objTypes PyType.pyslice with
      | none => .error .unknownType
      | some h =>
        match h.id with
        | .sliceH =>
            -- SliceHandler.packb (lines 222-224):
            -- dumpb((start, stop, step)) with DEFAULT compression
            (packVal ρ false v1).bind fun w1 =>
            (packVal ρ false v2).bind fun w2 =>
            (packVal ρ false v3).map fun w3 =>
            .wext h.extType
              (lz4_compress (.packed (.warr (.cons w1 (.cons w2 (.cons w3 .nil))))))
        | _ => .error .typeError
  | .dataclassInst n f =>
      match alookup ρ.objTypes (PyType.cls n) with
      | none => .error .unknownType
      | some h =>
        match h.id with
        | .dataclassH =>
            -- DataclassHandler.packb (lines 160-170):
            -- dumpb((name, obj.__dict__), do_compress=False)
            (packFields ρ false f).map fun wf =>
            .wext h.extType (.packed (.warr (.cons (.wstr n) (.cons (.wmap wf) .nil))))
        | _ => .error .typeError
  | .pydanticInst c f =>
      if exported then
        -- inside an enclosing obj.dict() export this instance has
        -- already been replaced by its exported dict
        (packFields ρ true f).map .wmap
      else
        match alookup ρ.objTypes (PyType.cls c.pyname) with
        | none => .error .unknownType
        | some h =>
          match h.id with
          | .pydanticH =>
              -- PydanticHandler.packb (lines 191-201):
              -- dumpb((name, obj.dict()), do_compress=False)
              (packFields ρ true f).map fun wf =>
              .wext h.extType (.packed (.warr (.cons (.wstr c.pyname) (.cons (.wmap wf) .nil))))
          | _ => .error .typeError
  | .foreign t =>
      match alookup ρ.objTypes t with
      | none => .error .unknownType
      | some _ => .error .typeError

def packList (ρ : Registry) (exported : Bool) : AppList → Except Err WireList
  | .nil => .ok .nil
  | .cons v t =>
      (packVal ρ exported v).bind fun w =>
      (packList ρ exported t).map fun wt => .cons w wt

/-- Dict entries: keys were not transformed by any `dict()` export, so
they are packed in normal mode; values inherit the mode. -/
def packKVs (ρ : Registry) (exported : Bool) : AppKVs → Except Err WireKVs
  | .nil => .ok .nil
  | .cons k v t =>
      (packVal ρ false k).bind fun wk =>
      (packVal ρ exported v).bind fun wv =>
      (packKVs ρ exported t).map fun wt => .cons wk wv wt

/-- A string-keyed field map as a msgpack map. -/
def packFields (ρ : Registry) (exported : Bool) : AppFields → Except Err WireKVs
  | .nil => .ok .nil
  | .cons k v t =>
      (packVal ρ exported v).bind fun wv =>
      (packFields ρ exported t).map fun wt => .cons (.wstr k) wv wt
end

/-- `dumpb` (msgpack.py lines 274-282): msgpack-pack with the `default`
hook, then run the compressor over the whole buffer unless
`do_compress` is false. -/
def dumpb (ρ : Registry) (v : AppVal) (do_compress : Bool)
    (compress_func : Bytes → Bytes) : Except Err Bytes :=
  (packVal ρ false v).map fun w =>
    (if do_compress then compress_func else do_nothing) (.packed w)

/-- Bytes of a decoded msgpack string when `raw=True` (one `Nat` per
ASCII char). -/
def strBytes (s : String) : List Nat := s.data.map Char.toNat

/-- Python dict lookup with a string key on a decoded msgpack map. -/
def lookupStrKey : AppKVs → String → Option AppVal
  | .nil, _ => none
  | .cons (.pystr k) v t, k0 => if k = k0 then some v else lookupStrKey t k0
  | .cons _ _ t, k0 => lookupStrKey t k0

/-- Python truthiness, for `if data['fortran_order']:` (line 126). -/
def truthy : AppVal → Bool
  | .pynone => false
  | .pybool b => b
  | .pyint n => !(n == 0)
  | .pystr s => !s.isEmpty
  | .pybytes bs => !bs.isEmpty
  | .pylist .nil => false
  | .pydict .nil => false
  | _ => true

def asShapeL : AppList → Option (List Nat)
  | .nil => some []
  | .cons (.pyint n) t =>
      if 0 ≤ n then (asShapeL t).map (List.cons n.toNat) else none
  | .cons _ _ => none

/-- The decoded `data['shape']` list as a numpy shape. -/
def asShape : AppVal → Option (List Nat)
  | .pylist xs => asShapeL xs
  | _ => none

/-- Body of `NumpyArrayHandler.unpackb` after the inner `loadb` (lines
117-128): reject dtype `'object'`, reinterpret the raw bytes against
`(shape, dtype)` (`np.frombuffer(...).reshape(...)`, which requires the
buffer length to equal `product(shape) * itemsize`), and reapply
column-major layout when flagged (`np.asfortranarray`; the decoded
array's `np.isfortran` is true only when the shape admits distinct
layouts). -/
def arrayFromDict : AppVal → Except Err NDArray
  | .pydict kvs =>
    (match lookupStrKey kvs "dtype" with
     | none => .error .valueError
     | some dv =>
       match dv with
       | .pystr t =>
         if t = "object" then .error .dtypeNotSupported
         else
           match Dtype.ofTag t with
           -- np.frombuffer calls np.dtype(t), which raises
           -- TypeError("data type ... not understood") for any tag that
           -- is not a valid dtype specification — in particular for the
           -- str() of a structured dtype
           | none => .error .typeError
           | some d =>
             match lookupStrKey kvs "shape" with
             | none => .error .valueError
             | some sv =>
               match asShape sv with
               | none => .error .valueError
               | some shape =>
                 match lookupStrKey kvs "data" with
                 | some (.pybytes bs) =>
                   if bs.length = shape.prod * d.itemsize then
                     match lookupStrKey kvs "fortran_order" with
                     | none => .error .valueError
                     | some fv =>
                         .ok ⟨shape, d, truthy fv && fortranDistinct shape, bs⟩
                   else .error .valueError
                 | _ => .error .valueError
       | _ => .error .valueError)
  | _ => .error .valueError

mutual
/-- `msgpack.unpackb(_, ext_hook=ext_hook, raw=raw)` (msgpack.py lines
253-267, 294-298): the wire tree is rebuilt structurally; every
extension frame is resolved by ext code through `REGISTRY['ext_types']`
and replaced by the handler's `unpackb` result (handler bodies inlined
below, with source lines). -/
def unpackWire (ρ : Registry) (raw : Bool) : Wire → Except Err AppVal
  | .wnil => .ok .pynone
  | .wbool b => .ok (.pybool b)
  | .wint n => .ok (.pyint n)
  | .wstr s => .ok (if raw then .pybytes (strBytes s) else .pystr s)
  | .wbin bs => .ok (.pybytes bs)
  | .warr xs => (unpackList ρ raw xs).map .pylist
  | .wmap kvs => (unpackKVs ρ raw kvs).map .pydict
  | .wext code payload =>
      match alookup ρ.extTypes code with
      | none => .error .unknownExtType
      | some h =>
        match h.id with
        | .numpyArr | .numpyStruct =>
            -- NumpyArrayHandler.unpackb (lines 116-128), inherited by
            -- NumpyStructuredArrayHandler:
            -- loadb(data, do_decompress=False) then rebuild the array
            match payload with
            | .packed w => (unpackWire ρ false w).bind fun dv =>
                (arrayFromDict dv).map .array
            | _ => .error .valueError
        | .datetimeH =>
            -- DatetimeHandler.unpackb (lines 147-149):
            -- datetime.fromtimestamp(float(data))
            match payload with
            | .ascii s =>
                match parse6 s with
                | some micros => .ok (.pydatetime micros)
                | none => .error .valueError
            | _ => .error .valueError
        | .sliceH =>
            -- SliceHandler.unpackb (lines 226-228):
            -- slice(*loadb(data)) with DEFAULT decompression
            match payload with
            | .compressed (.packed w) =>
                (unpackWire ρ false w).bind fun v =>
                  match v with
                  | .pylist (.cons a (.cons b (.cons c .nil))) => .ok (.pyslice a b c)
                  | _ => .error .typeError
            | _ => .error .valueError
        | .dataclassH =>
            -- DataclassHandler.unpackb (lines 172-181):
            -- classname, data = loadb(data, do_decompress=False, raw=False);
            -- assert classname in REGISTRY['serializables']; klass(**data)
            match payload with
            | .packed w =>
                (unpackWire ρ false w).bind fun v =>
                  match v with
                  | .pylist (.cons c1 (.cons d1 .nil)) =>
                      match c1 with
                      | .pystr n =>
                          match alookup ρ.serializables n with
                          | none => .error .classNotRegistered
                          | some klass =>
                              match d1 with
                              | .pydict kvs =>
                                  match kvsToFields kvs with
                                  | some f => .ok (.dataclassInst klass f)
                                  | none => .error .typeError
                              | _ => .error .typeError
                      | _ => .error .classNotRegistered
                  | _ => .error .valueError
            | _ => .error .valueError
        | .pydanticH =>
            -- PydanticHandler.unpackb (lines 203-212): as above but
            -- against 'pydantic_serializables', and klass(**data)
            -- revalidates the exported field map
            match payload with
            | .packed w =>
                (unpackWire ρ false w).bind fun v =>
                  match v with
                  | .pylist (.cons c1 (.cons d1 .nil)) =>
                      match c1 with
                      | .pystr n =>
                          match alookup ρ.pydanticSerializables n with
                          | none => .error .classNotRegistered
                          | some c =>
                              match d1 with
                              | .pydict kvs =>
                                  match kvsToFields kvs with
                                  | some f => .ok (.pydanticInst c (c.validate f))
                                  | none => .error .typeError
                              | _ => .error .typeError
                      | _ => .error .classNotRegistered
                  | _ => .error .valueError
            | _ => .error .valueError
        | .customH _ =>
            -- behaviour of a foreign user handler is opaque
            .error .typeError

def unpackList (ρ : Registry) (raw : Bool) : WireList → Except Err AppList
  | .nil => .ok .nil
  | .cons w t =>
      (unpackWire ρ raw w).bind fun v =>
      (unpackList ρ raw t).map fun vt => .cons v vt

def unpackKVs (ρ : Registry) (raw : Bool) : WireKVs → Except Err AppKVs
  | .nil => .ok .nil
  | .cons wk wv t =>
      (unpackWire ρ raw wk).bind fun k =>
      (unpackWire ρ raw wv).bind fun v =>
      (unpackKVs ρ raw t).map fun vt => .cons k v vt
end

/-- `loadb` (msgpack.py lines 285-298): `None` passes through; otherwise
decompress unless `do_decompress` is false, then msgpack-unpack with the
`ext_hook`. -/
def loadb (ρ : Registry) (packed : Option Bytes) (do_decompress : Bool)
    (decompress_func : Bytes → Except Err Bytes) (raw : Bool) : Except Err AppVal :=
  match packed with
  | none => .ok .pynone
  | some b =>
      ((if do_decompress then decompress_func else do_nothing_d) b).bind fun b1 =>
        match b1 with
        | .packed w => unpackWire ρ raw w
        | _ => .error .valueError

/- ------------------------------------------------------------------ -/
/- Scenario definitions used by the theorems                          -/
/- ------------------------------------------------------------------ -/

/-- Round trip through the top-level API with all default arguments:
`loadb(dumpb(v)) == v` with lz4 compression on both sides. -/
def rtrip (ρ : Registry) (v : AppVal) : Prop :=
  ((dumpb ρ v true lz4_compress).bind fun b =>
    loadb ρ (some b) true lz4_decompress false) = .ok v

/-- An array value that round-trips: well-formed, not of dtype `object`
(which encode rejects), and not of a structured dtype (whose `str()`
tag `np.dtype` cannot re-parse at decode). -/
def NDArray.rtOK (a : NDArray) : Bool :=
  a.wf && !(a.dtype == Dtype.objectD) && !a.dtype.structured

/-- A Python `int`-or-`None` slice bound. -/
def optInt : Option Int → AppVal
  | none => .pynone
  | some n => .pyint n

/-- The registry after additionally registering an application dataclass
`Box` and the pydantic model classes `Inner` and `Outer`. -/
def REGISTRY_EX : Registry :=
  match (register REGISTRY0 (.dcCls "Box") >>= fun r =>
         register r (.pydCls .inner) >>= fun r =>
         register r (.pydCls .outer)) with
  | .ok r => r
  | .error _ => emptyRegistry

/-- `Box(data=a)`: a registered dataclass instance holding an array. -/
def boxEx (a : NDArray) : AppVal :=
  .dataclassInst "Box" (.cons "data" (.array a) .nil)

/-- `Inner(x=k)`. -/
def innerEx (k : Int) : AppVal :=
  .pydanticInst .inner (.cons "x" (.pyint k) .nil)

/-- Internal state of `Outer(name=s, inner=Inner(x=k))`: the `"inner"`
field holds a model instance, while `obj.dict()` exports it as a plain
dict. -/
def outerFieldsEx (s : String) (k : Int) : AppFields :=
  .cons "name" (.pystr s) (.cons "inner" (innerEx k) .nil)

def outerEx (s : String) (k : Int) : AppVal :=
  .pydanticInst .outer (outerFieldsEx s k)

/-- Ext code of an encode result, when it is an extension frame. -/
def extCodeOf : Except Err Wire → Option Int
  | .ok (.wext c _) => some c
  | _ => none

/-- Whether an encode result is an extension frame whose payload bytes
are lz4-compressed. -/
def extPayloadCompressed : Except Err Wire → Bool
  | .ok (.wext _ (.compressed _)) => true
  | _ => false

/-- `np.array([(1, 1.0), (2, 2.0)], dtype=[('x', '<i4'), ('y', '<f8')])`:
a record-dtype (structured) array of two 12-byte records. -/
def structuredArr : NDArray := ⟨[2], .recXY, false, List.replicate 24 0⟩

/-- A plain-dtype 2 x 3 int8 array in row-major layout. -/
def plainArr : NDArray := ⟨[2, 3], .int8, false, [1, 2, 3, 4, 5, 6]⟩

/-- The same data in column-major layout (`np.asfortranarray`). -/
def fortranArr : NDArray := ⟨[2, 3], .int8, true, [1, 2, 3, 4, 5, 6]⟩

/-- `np.array([], dtype='int32')`. -/
def emptyArr : NDArray := ⟨[0], .int32, false, []⟩

/-- A dtype-`object` array of two boxed elements. -/
def objArr : NDArray := ⟨[2], .objectD, false, List.replicate 16 0⟩

/-- Two distinct user handler classes claiming the same ext code 9. -/
def handlerA : Handler := ⟨9, some (.other "A"), .customH 0⟩

def handlerB : Handler := ⟨9, some (.other "B"), .customH 1⟩

/-- Registering `handlerA` then `handlerB` on the module registry. -/
def regAB : Except Err Registry :=
  register REGISTRY0 (.handler handlerA) >>= fun r =>
    register r (.handler handlerB)

/-- List of naturals as the decoded Python list of ints. -/
def natsToAppList : List Nat → AppList
  | [] => .nil
  | n :: t => .cons (.pyint (Int.ofNat n)) (natsToAppList t)

/-- The Python dict that the inner `loadb` of `NumpyArrayHandler.unpackb`
returns for an array payload. -/
def arrayDictVal (a : NDArray) : AppVal :=
  .pydict (.cons (.pystr "shape") (.pylist (natsToAppList a.shape))
          (.cons (.pystr "dtype") (.pystr a.dtype.tag)
          (.cons (.pystr "fortran_order") (.pybool a.fortran)
          (.cons (.pystr "data") (.pybytes a.data) .nil))))

/- ------------------------------------------------------------------ -/
/- Theorems                                                           -/
/- ------------------------------------------------------------------ -/

/-- Collaborator contract: a plain (non-structured) dtype's string tag
identifies it. -/
theorem Dtype.ofTag_tag (d : Dtype) (h : d.structured = false) :
    Dtype.ofTag d.tag = some d := by
  cases d <;> first | rfl | simp [Dtype.structured] at h

/-- The structured dtype's tag is not re-parseable. -/
theorem Dtype.ofTag_tag_structured (d : Dtype) (h : d.structured = true) :
    Dtype.ofTag d.tag = none := by
  cases d <;> first | rfl | simp [Dtype.structured] at h

theorem Dtype.tag_eq_object_iff (d : Dtype) : (d.tag = "object") ↔ d = .objectD := by
  cases d <;> simp [Dtype.tag]

theorem alookup_setKey_self {κ α : Type} [DecidableEq κ]
    (l : List (κ × α)) (k : κ) (v : α) : alookup (setKey l k v) k = some v := by
  induction l with
  | nil => simp [setKey, alookup]
  | cons h t ih =>
    obtain ⟨k1, v1⟩ := h
    by_cases hk : k1 = k <;> simp [setKey, alookup, hk, ih]

theorem setKey_setKey_self {κ α : Type} [DecidableEq κ]
    (l : List (κ × α)) (k : κ) (v : α) : setKey (setKey l k v) k v = setKey l k v := by
  induction l with
  | nil => simp [setKey]
  | cons h t ih =>
    obtain ⟨k1, v1⟩ := h
    by_cases hk : k1 = k <;> simp [setKey, hk, ih]

/-- C9: `loadb` applied to the absent input `None` returns `None`, for
every decompress flag, every decompressor and every `raw` flag, without
consulting the bytes at all. -/
theorem loadb_none_returns_none (ρ : Registry) (dd : Bool)
    (f : Bytes → Except Err Bytes) (raw : Bool) :
    loadb ρ none dd f raw = .ok .pynone := rfl

/-- C5: encoding a value whose runtime type has no entry in the
registry's native-type table fails with the unknown-type `TypeError`
(the spec's `UnsupportedType`) and produces no bytes, for any
compression flag and compressor. -/
theorem dumpb_unknown_type (ρ : Registry) (t : PyType) (dc : Bool)
    (cf : Bytes → Bytes) (h : alookup ρ.objTypes t = none) :
    dumpb ρ (.foreign t) dc cf = .error .unknownType := by
  simp [dumpb, packVal, h, Except.map]

theorem dumpb_unknown_type_witness :
    alookup REGISTRY0.objTypes (.other "Foo") = none ∧
    dumpb REGISTRY0 (.foreign (.other "Foo")) true lz4_compress = .error .unknownType :=
  ⟨by decide, dumpb_unknown_type REGISTRY0 (.other "Foo") true lz4_compress (by decide)⟩

/-- C10: encode-side dispatch is by exact runtime type identity: a value
of a strict subclass of a registered native type (the subclass itself
not being a key of the native-type table) is not encoded with the
parent's handler but rejected with the unknown-type `TypeError`. -/
theorem dumpb_subclass_not_dispatched (ρ : Registry) (p : PyType) (n : String)
    (dc : Bool) (cf : Bytes → Bytes)
    (hparent : (alookup ρ.objTypes p).isSome = true)
    (hsub : alookup ρ.objTypes (.subclassOf p n) = none) :
    dumpb ρ (.foreign (.subclassOf p n)) dc cf = .error .unknownType := by
  simp [dumpb, packVal, hsub, Except.map]

theorem dumpb_subclass_not_dispatched_witness :
    (alookup REGISTRY0.objTypes .pydatetime).isSome = true ∧
    alookup REGISTRY0.objTypes (.subclassOf .pydatetime "MyDatetime") = none ∧
    dumpb REGISTRY0 (.foreign (.subclassOf .pydatetime "MyDatetime")) true lz4_compress =
      .error .unknownType :=
  ⟨by decide, by decide,
   dumpb_subclass_not_dispatched REGISTRY0 .pydatetime "MyDatetime" true lz4_compress
     (by decide) (by decide)⟩

/-- C7: encoding a numpy array of dtype `object` raises
`DtypeNotSupported` (the spec's `UnsupportedElementType`) during the
encode call itself, inside the handler's `packb`. -/
theorem dumpb_object_dtype_error (ρ : Registry) (a : NDArray) (dc : Bool)
    (cf : Bytes → Bytes) (hobj : a.dtype = .objectD)
    (hh : alookup ρ.objTypes .ndarray = some NumpyArrayHandler) :
    dumpb ρ (.array a) dc cf = .error .dtypeNotSupported := by
  simp [dumpb, packVal, hh, NumpyArrayHandler, hobj, Dtype.tag, Except.map]

theorem dumpb_object_dtype_error_witness :
    objArr.dtype = .objectD ∧
    alookup REGISTRY0.objTypes .ndarray = some NumpyArrayHandler ∧
    dumpb REGISTRY0 (.array objArr) true lz4_compress = .error .dtypeNotSupported :=
  ⟨by decide, by decide,
   dumpb_object_dtype_error REGISTRY0 objArr true lz4_compress (by decide) (by decide)⟩

/-- C2 (code evaluation at the failing input): `SliceHandler.packb`
calls `dumpb` with its default `do_compress=True`, so the encoded slice
`slice(0, 10, 2)` is an ext-code-5 frame whose nested
`(start, stop, step)` payload bytes ARE lz4-compressed — the slice
handler does apply the compressor to its nested tuple. -/
theorem slice_nested_payload_is_compressed :
    extPayloadCompressed
      (packVal REGISTRY0 false (.pyslice (.pyint 0) (.pyint 10) (.pyint 2))) = true ∧
    extCodeOf
      (packVal REGISTRY0 false (.pyslice (.pyint 0) (.pyint 10) (.pyint 2))) = some 5 := by
  constructor <;> rfl

/-- C3 (code evaluation at the failing input): a record-dtype
(structured) array is dispatched by the runtime type of the container
(`np.ndarray`), so it is wrapped with ext code 1 — not 2 — exactly like
a plain-dtype array, even though `NumpyStructuredArrayHandler` (ext
code 2) is registered under `np.void` in both tables. -/
theorem structured_array_encoded_with_ext_code_one :
    structuredArr.dtype = .recXY ∧
    extCodeOf (packVal REGISTRY0 false (.array structuredArr)) = some 1 ∧
    extCodeOf (packVal REGISTRY0 false (.array plainArr)) = some 1 ∧
    alookup REGISTRY0.objTypes .npVoid = some NumpyStructuredArrayHandler ∧
    alookup REGISTRY0.extTypes 2 = some NumpyStructuredArrayHandler := by
  refine ⟨rfl, ?_, ?_, by decide, by decide⟩ <;> rfl

/-- C4 counterexample: registering two *different* handler classes that
claim the same ext code 9 raises nothing — `register` has no collision
check — and silently rebinds the ext code to the second handler. -/
theorem register_collision_does_not_raise :
    regAB.map (fun r => alookup r.extTypes 9) = .ok (some handlerB) ∧
    handlerB ≠ handlerA := by
  constructor
  · rfl
  · decide

/-- C4 (amended): `register` never raises on an ext-code collision.
Registering a handler whose ext code is already bound to a different
handler succeeds and silently overwrites the binding with the new
handler (the custom-handler branch assigns both tables
unconditionally), while re-registering the identical handler again
succeeds and leaves the registry completely unchanged. -/
theorem register_overwrite_and_idempotent (ρ : Registry) (h1 h2 : Handler)
    (t1 t2 : PyType) (ho1 : h1.objType = some t1) (ho2 : h2.objType = some t2)
    (hc : h1.extType = h2.extType) :
    ((register ρ (.handler h1) >>= fun r => register r (.handler h2)).map
        (fun r => alookup r.extTypes h1.extType) = .ok (some h2)) ∧
    (register ρ (.handler h1) >>= fun r => register r (.handler h1)) =
      register ρ (.handler h1) := by
  constructor
  · simp only [register, ho1, ho2, bind, Except.bind, Except.map, hc]
    simp [alookup_setKey_self]
  · simp [register, ho1, bind, Except.bind, setKey_setKey_self]

theorem register_overwrite_and_idempotent_witness :
    handlerA.objType = some (.other "A") ∧
    handlerB.objType = some (.other "B") ∧
    handlerA.extType = handlerB.extType ∧
    ((register REGISTRY0 (.handler handlerA) >>= fun r =>
        register r (.handler handlerB)).map
        (fun r => alookup r.extTypes handlerA.extType) = .ok (some handlerB)) ∧
    (register REGISTRY0 (.handler handlerA) >>= fun r =>
        register r (.handler handlerA)) = register REGISTRY0 (.handler handlerA) :=
  ⟨by decide, by decide, by decide,
   register_overwrite_and_idempotent REGISTRY0 handlerA handlerB (.other "A") (.other "B")
     (by decide) (by decide) (by decide)⟩

/-- C6: decoding a structurally well-formed record extension payload
(dataclass ext code 4, pydantic ext code 6) whose type name is absent
from the corresponding registry table fails with the
"class ... not yet registered" `AssertionError` (the spec's
`UnregisteredType`); no value of that name is created. -/
theorem decode_unregistered_record_error (ρ : Registry) (n : String)
    (m : WireKVs) (kvs : AppKVs)
    (hdc : alookup ρ.extTypes 4 = some DataclassHandler)
    (hpy : alookup ρ.extTypes 6 = some PydanticHandler)
    (hm : unpackKVs ρ false m = .ok kvs)
    (hser : alookup ρ.serializables n = none)
    (hpser : alookup ρ.pydanticSerializables n = none) :
    unpackWire ρ false (.wext 4 (.packed (.warr (.cons (.wstr n) (.cons (.wmap m) .nil))))) =
      .error .classNotRegistered ∧
    unpackWire ρ false (.wext 6 (.packed (.warr (.cons (.wstr n) (.cons (.wmap m) .nil))))) =
      .error .classNotRegistered := by
  constructor
  · simp [unpackWire, hdc, DataclassHandler, unpackList, hm, hser, Except.bind, Except.map]
  · simp [unpackWire, hpy, PydanticHandler, unpackList, hm, hpser, Except.bind, Except.map]

theorem decode_unregistered_record_error_witness :
    alookup REGISTRY_EX.extTypes 4 = some DataclassHandler ∧
    alookup REGISTRY_EX.extTypes 6 = some PydanticHandler ∧
    unpackKVs REGISTRY_EX false (.cons (.wstr "x") (.wint 1) .nil) =
      .ok (.cons (.pystr "x") (.pyint 1) .nil) ∧
    alookup REGISTRY_EX.serializables "Missing" = none ∧
    alookup REGISTRY_EX.pydanticSerializables "Missing" = none ∧
    (unpackWire REGISTRY_EX false
        (.wext 4 (.packed (.warr (.cons (.wstr "Missing")
          (.cons (.wmap (.cons (.wstr "x") (.wint 1) .nil)) .nil))))) =
      .error .classNotRegistered ∧
     unpackWire REGISTRY_EX false
        (.wext 6 (.packed (.warr (.cons (.wstr "Missing")
          (.cons (.wmap (.cons (.wstr "x") (.wint 1) .nil)) .nil))))) =
      .error .classNotRegistered) :=
  ⟨by decide, by decide, rfl, by decide, by decide,
   decode_unregistered_record_error REGISTRY_EX "Missing"
     (.cons (.wstr "x") (.wint 1) .nil) (.cons (.pystr "x") (.pyint 1) .nil)
     (by decide) (by decide) rfl (by decide) (by decide)⟩

theorem decDigitVal_decChar (d : Nat) (h : d < 10) : decDigitVal (decChar d) = some d := by
  interval_cases d <;> rfl

theorem decChar_ne_dot (d : Nat) : decChar d ≠ '.' := by
  by_cases h : d < 10
  · interval_cases d <;> decide
  · unfold decChar
    rw [List.getD_eq_default _ _ (by simp [decDigitTable]; omega)]
    decide

theorem decChar_ne_dash (d : Nat) : decChar d ≠ '-' := by
  by_cases h : d < 10
  · interval_cases d <;> decide
  · unfold decChar
    rw [List.getD_eq_default _ _ (by simp [decDigitTable]; omega)]
    decide

/-- The big-endian digit list rendered by `natToDecChars`. -/
theorem natToDecChars_eq_map (n : Nat) :
    natToDecChars n = (if n = 0 then [0] else (Nat.digits 10 n).reverse).map decChar := by
  by_cases h : n = 0
  · subst h
    decide
  · simp [natToDecChars, h]

theorem natToDecChars_ne_nil (n : Nat) : natToDecChars n ≠ [] := by
  rw [natToDecChars_eq_map]
  by_cases h : n = 0 <;> simp [h, Nat.digits_ne_nil_iff_ne_zero]

theorem decDigits_lt (n : Nat) :
    ∀ d ∈ (if n = 0 then [0] else (Nat.digits 10 n).reverse), d < 10 := by
  by_cases h : n = 0
  · simp [h]
  · simp only [h, if_false, List.mem_reverse]
    exact fun d hd => Nat.digits_lt_base (by norm_num) hd

theorem ofDigits_decDigits (n : Nat) :
    Nat.ofDigits 10 (if n = 0 then [0] else (Nat.digits 10 n).reverse).reverse = n := by
  by_cases h : n = 0
  · simp [h, Nat.ofDigits]
  · simp [h, Nat.ofDigits_digits]

theorem map_val_map_decChar (l : List Nat) (h : ∀ d ∈ l, d < 10) :
    (l.map decChar).map (fun c => (decDigitVal c).getD 0) = l := by
  induction l with
  | nil => rfl
  | cons d t ih =>
    simp only [List.map_cons, List.cons.injEq]
    constructor
    · rw [decDigitVal_decChar d (h d (by simp))]
      rfl
    · exact ih fun x hx => h x (by simp [hx])

theorem all_isSome_map_decChar (l : List Nat) (h : ∀ d ∈ l, d < 10) :
    (l.map decChar).all (fun c => (decDigitVal c).isSome) = true := by
  simp only [List.all_eq_true]
  intro c hc
  obtain ⟨d, hd, rfl⟩ := List.mem_map.mp hc
  rw [decDigitVal_decChar d (h d hd)]
  rfl

/-- Parsing the rendering of any nonempty small-digit list. -/
theorem parseDecL_map (l : List Nat) (hne : l ≠ []) (h : ∀ d ∈ l, d < 10) :
    parseDecL (l.map decChar) = some (Nat.ofDigits 10 l.reverse) := by
  unfold parseDecL
  rw [if_neg (by simp [hne]), if_pos (all_isSome_map_decChar l h),
    map_val_map_decChar l h]

theorem parseDecL_natToDecChars (n : Nat) : parseDecL (natToDecChars n) = some n := by
  rw [natToDecChars_eq_map]
  rw [parseDecL_map _ (by by_cases h : n = 0 <;> simp [h, Nat.digits_ne_nil_iff_ne_zero])
    (decDigits_lt n)]
  rw [ofDigits_decDigits]

theorem ofDigits_replicate_zero (k : Nat) : Nat.ofDigits 10 (List.replicate k 0) = 0 := by
  induction k with
  | zero => rfl
  | succ k ih => simp [List.replicate_succ, Nat.ofDigits_cons, ih]

theorem parseDecL_pad6 (r : Nat) : parseDecL (pad6Chars r) = some r := by
  unfold pad6Chars
  rw [natToDecChars_eq_map]
  rw [show List.replicate (6 - ((if r = 0 then [0] else (Nat.digits 10 r).reverse).map decChar).length) '0'
      = (List.replicate (6 - ((if r = 0 then [0] else (Nat.digits 10 r).reverse).map decChar).length) 0).map decChar by
    rw [List.map_replicate]
    rfl]
  rw [← List.map_append]
  rw [parseDecL_map _ (by by_cases h : r = 0 <;> simp [h, Nat.digits_ne_nil_iff_ne_zero])
    (by intro d hd
        rcases List.mem_append.mp hd with hd | hd
        · rw [List.eq_of_mem_replicate hd]; norm_num
        · exact decDigits_lt r d hd)]
  rw [List.reverse_append, List.reverse_replicate, Nat.ofDigits_append, ofDigits_decDigits]
  simp [ofDigits_replicate_zero]

theorem natToDecChars_length_le (r : Nat) (h : r < 1000000) :
    (natToDecChars r).length ≤ 6 := by
  rw [natToDecChars_eq_map, List.length_map]
  by_cases h0 : r = 0
  · simp [h0]
  · simp only [h0, if_false, List.length_reverse]
    rw [Nat.digits_len 10 r (by norm_num) h0]
    have hp : (10 : Nat) ^ 6 = 1000000 := by norm_num
    have : Nat.log 10 r < 6 := Nat.log_lt_of_lt_pow h0 (by omega)
    omega

theorem pad6_length (r : Nat) (h : r < 1000000) : (pad6Chars r).length = 6 := by
  unfold pad6Chars
  rw [List.length_append, List.length_replicate]
  have := natToDecChars_length_le r h
  omega

theorem dot_not_mem_natToDecChars (n : Nat) : '.' ∉ natToDecChars n := by
  rw [natToDecChars_eq_map]
  intro hm
  obtain ⟨d, _, hd⟩ := List.mem_map.mp hm
  exact decChar_ne_dot d hd

theorem dash_not_mem_natToDecChars (n : Nat) : '-' ∉ natToDecChars n := by
  rw [natToDecChars_eq_map]
  intro hm
  obtain ⟨d, _, hd⟩ := List.mem_map.mp hm
  exact decChar_ne_dash d hd

theorem dot_not_mem_pad6 (r : Nat) : '.' ∉ pad6Chars r := by
  unfold pad6Chars
  intro hm
  rcases List.mem_append.mp hm with hm | hm
  · exact absurd (List.eq_of_mem_replicate hm) (by decide)
  · exact dot_not_mem_natToDecChars r hm

theorem splitDot_append (xs ys : List Char) (hx : '.' ∉ xs) (hy : '.' ∉ ys) :
    splitDot (xs ++ '.' :: ys) = some (xs, ys) := by
  induction xs with
  | nil => simp [splitDot, hy]
  | cons c t ih =>
    have hc : c ≠ '.' := fun h => hx (h ▸ List.mem_cons_self c t)
    simp only [List.cons_append, splitDot, hc, if_false, List.append_eq]
    rw [ih (fun h => hx (List.mem_cons_of_mem c h))]
    rfl

theorem parse6Pos_fmt (q r : Nat) (hr : r < 1000000) :
    parse6Pos (natToDecChars q ++ '.' :: pad6Chars r) = some (q * 1000000 + r) := by
  unfold parse6Pos
  rw [splitDot_append _ _ (dot_not_mem_natToDecChars q) (dot_not_mem_pad6 r)]
  simp [pad6_length r hr, parseDecL_natToDecChars, parseDecL_pad6]

/-- The `%f` text of a microsecond timestamp parses back to exactly the
same microsecond count. -/
theorem parse6_fmt6 (micros : Int) : parse6 (fmt6 micros) = some micros := by
  have hmod : micros.natAbs % 1000000 < 1000000 := Nat.mod_lt _ (by norm_num)
  have habs : micros.natAbs / 1000000 * 1000000 + micros.natAbs % 1000000 =
      micros.natAbs := by omega
  show parse6Chars (fmt6Chars micros) = some micros
  unfold fmt6Chars
  by_cases h : micros < 0
  · rw [if_pos h]
    show parse6Chars ('-' :: (natToDecChars _ ++ '.' :: pad6Chars _)) = _
    simp only [parse6Chars, if_pos]
    rw [parse6Pos_fmt _ _ hmod]
    simp only [Option.map, habs, Int.ofNat_eq_natCast]
    congr 1
    omega
  · rw [if_neg h]
    have hq := natToDecChars_ne_nil (micros.natAbs / 1000000)
    rcases hqq : natToDecChars (micros.natAbs / 1000000) with _ | ⟨c, t⟩
    · exact absurd hqq hq
    · have hdash : c ≠ '-' := by
        intro hc
        exact dash_not_mem_natToDecChars (micros.natAbs / 1000000)
          (hc ▸ hqq ▸ List.mem_cons_self c t)
      rw [List.nil_append]
      simp only [List.cons_append, parse6Chars, hdash, if_false]
      rw [show c :: (t ++ '.' :: pad6Chars (micros.natAbs % 1000000)) =
          natToDecChars (micros.natAbs / 1000000) ++
            '.' :: pad6Chars (micros.natAbs % 1000000) from by
        rw [hqq, List.cons_append]]
      rw [parse6Pos_fmt _ _ hmod]
      simp only [Option.map, habs, Int.ofNat_eq_natCast]
      congr 1
      omega

/-- C8: for every datetime (microsecond grid), the timestamp handler's
payload is exactly the ASCII decimal text of the seconds-since-epoch
value with exactly 6 fractional digits, and decode parses that text
back to the same datetime, so round-tripping preserves microsecond
resolution (sub-microsecond values do not exist in a Python datetime). -/
theorem datetime_payload_six_decimal (ρ : Registry) (micros : Int)
    (hh : alookup ρ.objTypes .pydatetime = some DatetimeHandler)
    (hx : alookup ρ.extTypes 3 = some DatetimeHandler) :
    packVal ρ false (.pydatetime micros) = .ok (.wext 3 (.ascii (fmt6 micros))) ∧
    (splitDot (fmt6 micros).data).map (fun p => p.2.length) = some 6 ∧
    parse6 (fmt6 micros) = some micros ∧
    unpackWire ρ false (.wext 3 (.ascii (fmt6 micros))) = .ok (.pydatetime micros) := by
  have hsign : '.' ∉ (if micros < 0 then ['-'] else ([] : List Char)) := by
    by_cases h : micros < 0 <;> simp [h]
  refine ⟨?_, ?_, parse6_fmt6 micros, ?_⟩
  · simp [packVal, hh, DatetimeHandler]
  · show (splitDot (fmt6Chars micros)).map (fun p => p.2.length) = some 6
    unfold fmt6Chars
    rw [splitDot_append _ _ ?hxs (dot_not_mem_pad6 _)]
    · simp [pad6_length _ (Nat.mod_lt _ (by norm_num))]
    case hxs =>
      intro hm
      rcases List.mem_append.mp hm with hm | hm
      · exact hsign hm
      · exact dot_not_mem_natToDecChars _ hm
  · simp [unpackWire, hx, DatetimeHandler, parse6_fmt6]

theorem datetime_payload_six_decimal_witness :
    alookup REGISTRY0.objTypes .pydatetime = some DatetimeHandler ∧
    alookup REGISTRY0.extTypes 3 = some DatetimeHandler ∧
    (packVal REGISTRY0 false (.pydatetime 1700000000500000) =
        .ok (.wext 3 (.ascii (fmt6 1700000000500000))) ∧
      (splitDot (fmt6 1700000000500000).data).map (fun p => p.2.length) = some 6 ∧
      parse6 (fmt6 1700000000500000) = some 1700000000500000 ∧
      unpackWire REGISTRY0 false (.wext 3 (.ascii (fmt6 1700000000500000))) =
        .ok (.pydatetime 1700000000500000)) :=
  ⟨by decide, by decide,
   datetime_payload_six_decimal REGISTRY0 1700000000500000 (by decide) (by decide)⟩

theorem unpackList_shapeWire (ρ : Registry) (raw : Bool) (l : List Nat) :
    unpackList ρ raw (shapeWire l) = .ok (natsToAppList l) := by
  induction l with
  | nil => rfl
  | cons n t ih =>
    simp [shapeWire, unpackList, unpackWire, natsToAppList, ih, Except.bind, Except.map]

theorem asShapeL_natsToAppList (l : List Nat) : asShapeL (natsToAppList l) = some l := by
  induction l with
  | nil => rfl
  | cons n t ih => simp [natsToAppList, asShapeL, ih, Int.ofNat_eq_natCast]

theorem unpack_arrayWire (ρ : Registry) (a : NDArray) :
    unpackWire ρ false (arrayWire a) = .ok (arrayDictVal a) := by
  simp [arrayWire, unpackWire, unpackKVs, unpackList_shapeWire, arrayDictVal,
    Except.bind, Except.map]

theorem rtOK_spec (a : NDArray) (h : a.rtOK = true) :
    a.dtype ≠ .objectD ∧ a.data.length = a.shape.prod * a.dtype.itemsize ∧
      (a.fortran = true → fortranDistinct a.shape = true) ∧
      a.dtype.structured = false := by
  simp [NDArray.rtOK, NDArray.wf] at h
  obtain ⟨⟨⟨h2, h3⟩, h1⟩, h4⟩ := h
  refine ⟨h1, h2, fun hf => ?_, h4⟩
  rcases h3 with h3 | h3
  · rw [hf] at h3
    simp at h3
  · exact h3

theorem arrayFromDict_arrayDictVal (a : NDArray)
    (h1 : a.dtype ≠ .objectD) (h2 : a.data.length = a.shape.prod * a.dtype.itemsize)
    (h3 : a.fortran = true → fortranDistinct a.shape = true)
    (h4 : a.dtype.structured = false) :
    arrayFromDict (arrayDictVal a) = .ok a := by
  have htag : ¬ a.dtype.tag = "object" := fun h => h1 ((Dtype.tag_eq_object_iff a.dtype).mp h)
  have hot := Dtype.ofTag_tag a.dtype h4
  obtain ⟨sh, dt, f, da⟩ := a
  simp only at h2 h3 htag hot
  simp [arrayFromDict, arrayDictVal, lookupStrKey, htag, hot, asShape,
    asShapeL_natsToAppList, h2, truthy]
  cases f
  · simp
  · simp [h3 rfl]

theorem arr_pack (ρ : Registry) (a : NDArray)
    (hh : alookup ρ.objTypes .ndarray = some NumpyArrayHandler)
    (h1 : a.dtype ≠ .objectD) :
    packVal ρ false (.array a) = .ok (.wext 1 (.packed (arrayWire a))) := by
  have htag : ¬ a.dtype.tag = "object" := fun h => h1 ((Dtype.tag_eq_object_iff a.dtype).mp h)
  simp [packVal, hh, NumpyArrayHandler, htag]

theorem unpack_ext_numpy (ρ : Registry) (w : Wire)
    (hx : alookup ρ.extTypes 1 = some NumpyArrayHandler) :
    unpackWire ρ false (.wext 1 (.packed w)) =
      (unpackWire ρ false w).bind fun dv => (arrayFromDict dv).map .array := by
  simp only [unpackWire, hx, NumpyArrayHandler]

theorem arr_unpack (ρ : Registry) (a : NDArray)
    (hx : alookup ρ.extTypes 1 = some NumpyArrayHandler)
    (h1 : a.dtype ≠ .objectD) (h2 : a.data.length = a.shape.prod * a.dtype.itemsize)
    (h3 : a.fortran = true → fortranDistinct a.shape = true)
    (h4 : a.dtype.structured = false) :
    unpackWire ρ false (.wext 1 (.packed (arrayWire a))) = .ok (.array a) := by
  rw [unpack_ext_numpy ρ _ hx, unpack_arrayWire]
  simp [arrayFromDict_arrayDictVal a h1 h2 h3 h4, Except.bind, Except.map]

theorem rt_array (a : NDArray) (h : a.rtOK = true) : rtrip REGISTRY_EX (.array a) := by
  obtain ⟨h1, h2, h3, h4⟩ := rtOK_spec a h
  have hnd : alookup REGISTRY_EX.objTypes .ndarray = some NumpyArrayHandler := by decide
  have hx1 : alookup REGISTRY_EX.extTypes 1 = some NumpyArrayHandler := by decide
  unfold rtrip dumpb loadb
  rw [arr_pack _ _ hnd h1]
  simp [lz4_compress, lz4_decompress, do_nothing, Except.bind, Except.map,
    arr_unpack _ _ hx1 h1 h2 h3 h4]

/-- A record-dtype array encodes (under ext code 1) but its decode fails:
`np.frombuffer` cannot re-parse the `str()` of the structured dtype and
raises `TypeError`, so the top-level round trip errors instead of
returning the array. -/
theorem rt_structured_fails (a : NDArray) (h : a.dtype = .recXY) :
    ((dumpb REGISTRY_EX (.array a) true lz4_compress).bind fun b =>
      loadb REGISTRY_EX (some b) true lz4_decompress false) = .error .typeError := by
  have hnd : alookup REGISTRY_EX.objTypes .ndarray = some NumpyArrayHandler := by decide
  have hx1 : alookup REGISTRY_EX.extTypes 1 = some NumpyArrayHandler := by decide
  have h1 : a.dtype ≠ .objectD := by rw [h]; intro hc; cases hc
  unfold dumpb loadb
  rw [arr_pack _ _ hnd h1]
  simp [lz4_compress, lz4_decompress, Except.bind, Except.map,
    unpack_ext_numpy REGISTRY_EX _ hx1, unpack_arrayWire, arrayFromDict,
    arrayDictVal, lookupStrKey, h, Dtype.tag, Dtype.ofTag]

theorem rt_datetime (micros : Int) : rtrip REGISTRY_EX (.pydatetime micros) := by
  have hd : alookup REGISTRY_EX.objTypes .pydatetime = some DatetimeHandler := by decide
  have hx : alookup REGISTRY_EX.extTypes 3 = some DatetimeHandler := by decide
  unfold rtrip dumpb loadb
  simp [packVal, hd, DatetimeHandler, lz4_compress, lz4_decompress, Except.bind,
    Except.map, unpackWire, hx, parse6_fmt6]

theorem rt_slice (i j k : Option Int) :
    rtrip REGISTRY_EX (.pyslice (optInt i) (optInt j) (optInt k)) := by
  have hs : alookup REGISTRY_EX.objTypes .pyslice = some SliceHandler := by decide
  have hx : alookup REGISTRY_EX.extTypes 5 = some SliceHandler := by decide
  rcases i with _ | a <;> rcases j with _ | b <;> rcases k with _ | c <;>
    simp [rtrip, dumpb, loadb, packVal, optInt, hs, SliceHandler, hx, lz4_compress,
      lz4_decompress, unpackWire, unpackList, Except.bind, Except.map]

theorem rt_box (a : NDArray) (h : a.rtOK = true) : rtrip REGISTRY_EX (boxEx a) := by
  obtain ⟨h1, h2, h3, h4⟩ := rtOK_spec a h
  have hnd : alookup REGISTRY_EX.objTypes .ndarray = some NumpyArrayHandler := by decide
  have hx1 : alookup REGISTRY_EX.extTypes 1 = some NumpyArrayHandler := by decide
  have hcls : alookup REGISTRY_EX.objTypes (.cls "Box") = some DataclassHandler := by decide
  have hx4 : alookup REGISTRY_EX.extTypes 4 = some DataclassHandler := by decide
  have hser : alookup REGISTRY_EX.serializables "Box" = some "Box" := by decide
  have htag : ¬ a.dtype.tag = "object" := fun hx => h1 ((Dtype.tag_eq_object_iff _).mp hx)
  have harr := arr_unpack REGISTRY_EX a hx1 h1 h2 h3 h4
  unfold rtrip dumpb loadb boxEx
  simp only [packVal, hcls, DataclassHandler, packFields, hnd, NumpyArrayHandler]
  rw [if_neg htag]
  generalize hW : Wire.wext 1 (Bytes.packed (arrayWire a)) = W
  rw [hW] at harr
  simp [Except.bind, Except.map, lz4_compress, lz4_decompress, unpackWire, hx4,
    unpackList, unpackKVs, harr, hser, kvsToFields]

theorem rt_outer (s : String) (k : Int) :
    rtrip REGISTRY_EX (outerEx s k) ∧
      exportFields (outerFieldsEx s k) ≠ outerFieldsEx s k := by
  have hcls : alookup REGISTRY_EX.objTypes (.cls "Outer") = some PydanticHandler := by decide
  have hx6 : alookup REGISTRY_EX.extTypes 6 = some PydanticHandler := by decide
  have hpser : alookup REGISTRY_EX.pydanticSerializables "Outer" = some .outer := by decide
  constructor
  · unfold rtrip dumpb loadb outerEx outerFieldsEx innerEx
    simp [packVal, packFields, PydClass.pyname, hcls, PydanticHandler, lz4_compress,
      lz4_decompress, Except.bind, Except.map, unpackWire, hx6, unpackList, unpackKVs,
      kvsToFields, hpser, PydClass.validate, mapField, toInner]
  · simp [exportFields, outerFieldsEx, innerEx, exportVal, exportFieldsKV]

/-- C1 counterexample: the round trip fails for a record-dtype
(structured) array.  `structuredArr` is well-formed and `dumpb` encodes
it (ext code 1), but decode raises `TypeError` when `np.frombuffer`
re-parses the dtype tag `"[('x', '<i4'), ('y', '<f8')]"`, which
`np.dtype` does not understand — so `loadb(dumpb(v))` errors instead of
returning `v`. -/
theorem structured_array_roundtrip_fails :
    structuredArr.wf = true ∧
    structuredArr.dtype.structured = true ∧
    ((dumpb REGISTRY_EX (.array structuredArr) true lz4_compress).bind fun b =>
        loadb REGISTRY_EX (some b) true lz4_decompress false) = .error .typeError := by
  refine ⟨by decide, by decide, ?_⟩
  rfl

/-- C1 (amended): for every value of a registered handler kind whose
dtype tag the array library can re-parse, the top-level round trip
`loadb(dumpb(v)) == v` holds (default lz4 compression on both sides):
every well-formed numpy array of non-object, non-structured dtype —
which covers the empty array and multi-dimensional arrays in row-major
and (via the `np.isfortran` flag) column-major layout — every datetime
on the microsecond grid, every slice with int-or-None bounds including
`stop = None`, a registered dataclass instance holding a nested array
field, and a registered pydantic model instance whose exported dict
differs from its raw internal state (the decode re-validates the
exported view back into the original instance).  A record-dtype
(structured) array instead encodes but fails to decode: `np.dtype`
cannot parse the `str()` of a structured dtype, so the round trip
raises `TypeError`. -/
theorem roundtrip_registered_kinds :
    (∀ a : NDArray, a.rtOK = true → rtrip REGISTRY_EX (.array a)) ∧
    (∀ a : NDArray, a.dtype = .recXY →
      ((dumpb REGISTRY_EX (.array a) true lz4_compress).bind fun b =>
        loadb REGISTRY_EX (some b) true lz4_decompress false) = .error .typeError) ∧
    (∀ micros : Int, rtrip REGISTRY_EX (.pydatetime micros)) ∧
    (∀ i j k : Option Int,
      rtrip REGISTRY_EX (.pyslice (optInt i) (optInt j) (optInt k))) ∧
    (∀ a : NDArray, a.rtOK = true → rtrip REGISTRY_EX (boxEx a)) ∧
    (∀ s : String, ∀ k : Int, rtrip REGISTRY_EX (outerEx s k) ∧
      exportFields (outerFieldsEx s k) ≠ outerFieldsEx s k) :=
  ⟨rt_array, rt_structured_fails, rt_datetime, rt_slice, rt_box, rt_outer⟩

theorem roundtrip_registered_kinds_witness :
    (emptyArr.rtOK = true ∧ rtrip REGISTRY_EX (.array emptyArr)) ∧
    (plainArr.rtOK = true ∧ rtrip REGISTRY_EX (.array plainArr)) ∧
    (fortranArr.rtOK = true ∧ rtrip REGISTRY_EX (.array fortranArr)) ∧
    (structuredArr.dtype = .recXY ∧
      ((dumpb REGISTRY_EX (.array structuredArr) true lz4_compress).bind fun b =>
        loadb REGISTRY_EX (some b) true lz4_decompress false) = .error .typeError) ∧
    rtrip REGISTRY_EX (.pydatetime 1700000000000000) ∧
    rtrip REGISTRY_EX (.pydatetime 1700000000500000) ∧
    rtrip REGISTRY_EX (.pyslice (optInt (some 1)) (optInt (some 10)) (optInt (some 2))) ∧
    rtrip REGISTRY_EX (.pyslice (optInt (some 1)) (optInt none) (optInt (some 2))) ∧
    (plainArr.rtOK = true ∧ rtrip REGISTRY_EX (boxEx plainArr)) ∧
    (rtrip REGISTRY_EX (outerEx "bob" 5) ∧
      exportFields (outerFieldsEx "bob" 5) ≠ outerFieldsEx "bob" 5) :=
  ⟨⟨by decide, roundtrip_registered_kinds.1 emptyArr (by decide)⟩,
   ⟨by decide, roundtrip_registered_kinds.1 plainArr (by decide)⟩,
   ⟨by decide, roundtrip_registered_kinds.1 fortranArr (by decide)⟩,
   ⟨by decide, roundtrip_registered_kinds.2.1 structuredArr (by decide)⟩,
   roundtrip_registered_kinds.2.2.1 1700000000000000,
   roundtrip_registered_kinds.2.2.1 1700000000500000,
   roundtrip_registered_kinds.2.2.2.1 (some 1) (some 10) (some 2),
   roundtrip_registered_kinds.2.2.2.1 (some 1) none (some 2),
   ⟨by decide, roundtrip_registered_kinds.2.2.2.2.1 plainArr (by decide)⟩,
   roundtrip_registered_kinds.2.2.2.2.2 "bob" 5⟩
